import Mathlib

set_option maxHeartbeats 1000000

/-!
Shallow embedding of the MikrotikMonitor Go package (src/MikrotikMonitor.go).

The package polls MikroTik devices over SNMP: `SNMPConfigure` writes a
device's connection parameters into the shared `gosnmp.Default` handle,
`GetDevice` connects, issues one batch Get over five fixed OIDs and maps the
returned variables into the `Device` record, and `ResultJson` marshals the
fleet to JSON (fields tagged with the json dash tag are excluded).

Machine-level conventions of the embedding:
* Go strings and `[]byte` buffers are Lean `String`s; a dynamic SNMP value
  (Go `interface\x7b\x7d`) is the inductive `GoValue`, and the unchecked type
  assertion `variable.Value.([]byte)` becomes an `Option`: `none` models the
  run-time panic that aborts the whole poll.
* The mutable `gosnmp.Default` singleton is the explicit state `GoSnmp`
  threaded through `SNMPConfigure`, `GetDevice` and `pollFleet`.
* Network I/O (`Connect`, `Get`) is abstracted by the oracle `NetEnv` giving
  the transport outcome of the one connect and the one batch request a poll
  performs.
-/

namespace MikrotikMonitor

/-- Dynamic SNMP variable value (Go `interface\x7b\x7d`): either a byte buffer or a
non-byte payload (represented by an integer), mirroring the dynamic value that
`GetDevice` type-asserts to `[]byte`. -/
inductive GoValue where
  | bytes (s : String)
  | int (n : Int)
deriving DecidableEq

/-- True exactly on byte-buffer values, i.e. where the Go type assertion
`.([]byte)` succeeds. -/
def GoValue.isBytes : GoValue → Bool
  | .bytes _ => true
  | .int _ => false

/-- gosnmp `SnmpV3AuthProtocol`; `unspecified` models the Go zero value of the
integer type (no named gosnmp constant). -/
inductive SnmpV3AuthProtocol where
  | unspecified
  | NoAuth
  | MD5
  | SHA
deriving DecidableEq

/-- gosnmp `SnmpV3PrivProtocol`; `unspecified` models the Go zero value. -/
inductive SnmpV3PrivProtocol where
  | unspecified
  | NoPriv
  | DES
  | AES
deriving DecidableEq

/-- gosnmp `SnmpVersion`. -/
inductive SnmpVersion where
  | Version1
  | Version2c
  | Version3
deriving DecidableEq

/-- gosnmp `SnmpV3MsgFlags`; `NoAuthNoPriv` is the zero value. -/
inductive SnmpV3MsgFlags where
  | NoAuthNoPriv
  | AuthNoPriv
  | AuthPriv
deriving DecidableEq

/-- gosnmp `SnmpV3SecurityModel`; `unspecified` models the Go zero value. -/
inductive SnmpV3SecurityModel where
  | unspecified
  | UserSecurityModel
deriving DecidableEq

/-- Go struct `Authentication`: `Protocol` and `Passphrase` carry the json
dash tag (non-exportable). -/
structure Authentication where
  Active : Bool
  Protocol : String
  Passphrase : String
deriving DecidableEq

/-- Go struct `Privacy`: `Protocol` and `Passphrase` carry the json dash tag. -/
structure Privacy where
  Active : Bool
  Protocol : String
  Passphrase : String
deriving DecidableEq

/-- Go struct `SNMP`: `Community` carries the json dash tag. -/
structure SNMP where
  Version : String
  Community : String
  Authentication : Authentication
  Privacy : Privacy
deriving DecidableEq

/-- Go struct `Version` (the RouterOS version triple). -/
structure Version where
  RouterOS : String
  Bootloader : String
  Latest : String
deriving DecidableEq

/-- Go struct `Device`. -/
structure Device where
  Reached : Bool
  Host : String
  Model : String
  Name : String
  SNMP : SNMP
  Version : Version
deriving DecidableEq

/-- Go `type Devices []Device`. -/
abbrev Devices := List Device

/-- `Authentication.GetProtocol`: switch on the symbolic name, defaulting to
`gosnmp.SHA` for anything unrecognized. -/
def Authentication.GetProtocol (auth : Authentication) : SnmpV3AuthProtocol :=
  if auth.Protocol = "SHA1" then .SHA
  else if auth.Protocol = "MD5" then .MD5
  else .SHA

/-- `Privacy.GetProtocol`: switch on the symbolic name, defaulting to
`gosnmp.DES` for anything unrecognized. -/
def Privacy.GetProtocol (priv : Privacy) : SnmpV3PrivProtocol :=
  if priv.Protocol = "DES" then .DES
  else if priv.Protocol = "AES" then .AES
  else .DES

/-- gosnmp `UsmSecurityParameters` (the fields this package writes). -/
structure UsmSecurityParameters where
  UserName : String
  AuthenticationProtocol : SnmpV3AuthProtocol
  AuthenticationPassphrase : String
  PrivacyProtocol : SnmpV3PrivProtocol
  PrivacyPassphrase : String
deriving DecidableEq

/-- The fields of the shared mutable `gosnmp.Default` handle that this
package reads or writes. `Timeout` is in nanoseconds (Go `time.Duration`). -/
structure GoSnmp where
  Timeout : Nat
  Target : String
  Community : String
  Version : SnmpVersion
  SecurityModel : SnmpV3SecurityModel
  MsgFlags : SnmpV3MsgFlags
  SecurityParameters : Option UsmSecurityParameters
deriving DecidableEq

/-- Go `time.Second` in nanoseconds. -/
def timeSecond : Nat := 1000000000

/-- The initial value of `gosnmp.Default` (gosnmp package: Version2c,
community "public", 2 second timeout, no security parameters). -/
def defaultGoSnmp : GoSnmp :=
  { Timeout := 2 * timeSecond
    Target := ""
    Community := "public"
    Version := .Version2c
    SecurityModel := .unspecified
    MsgFlags := .NoAuthNoPriv
    SecurityParameters := none }

/-- The `gosnmp.UsmSecurityParameters\x7b...\x7d` value `SNMPConfigure` builds when
authentication or privacy is active: username from the community string, then
the authentication block (if active), then the privacy block (if active);
unwritten fields keep the Go zero value. -/
def usmSecurityParametersFor (device : Device) : UsmSecurityParameters :=
  let usm0 : UsmSecurityParameters :=
    { UserName := device.SNMP.Community
      AuthenticationProtocol := .unspecified
      AuthenticationPassphrase := ""
      PrivacyProtocol := .unspecified
      PrivacyPassphrase := "" }
  let usm1 :=
    if device.SNMP.Authentication.Active then
      { usm0 with
        AuthenticationProtocol := device.SNMP.Authentication.GetProtocol
        AuthenticationPassphrase := device.SNMP.Authentication.Passphrase }
    else usm0
  if device.SNMP.Privacy.Active then
    { usm1 with
      PrivacyProtocol := device.SNMP.Privacy.GetProtocol
      PrivacyPassphrase := device.SNMP.Privacy.Passphrase }
  else usm1

/-- `Device.SNMPConfigure`: writes timeout, target and community into the
shared handle; the version switch has arms only for "2c" and "3" (any other
version string leaves version, security model and message flags as the
previous configuration left them); independently of the version, a
`UsmSecurityParameters` bundle is attached whenever authentication or privacy
is active. -/
def SNMPConfigure (device : Device) (g : GoSnmp) : GoSnmp :=
  let g1 := { g with
    Timeout := 3 * timeSecond
    Target := device.Host
    Community := device.SNMP.Community }
  let g2 :=
    if device.SNMP.Version = "2c" then
      { g1 with Version := .Version2c }
    else if device.SNMP.Version = "3" then
      { g1 with
        Version := .Version3
        SecurityModel := .UserSecurityModel
        MsgFlags := .AuthPriv }
    else g1
  if device.SNMP.Authentication.Active || device.SNMP.Privacy.Active then
    { g2 with SecurityParameters := some (usmSecurityParametersFor device) }
  else g2

/-- One returned SNMP variable binding (gosnmp `SnmpPDU`): OID name and
dynamic value. -/
structure SnmpPDU where
  Name : String
  Value : GoValue
deriving DecidableEq

/-- The fixed OID batch `GetDevice` requests, in source order. -/
def oids : List String :=
  [".1.3.6.1.4.1.14988.1.1.4.4.0", ".1.3.6.1.4.1.14988.1.1.7.4.0",
   ".1.3.6.1.4.1.14988.1.1.7.7.0", ".1.3.6.1.2.1.1.1.0", ".1.3.6.1.2.1.1.5.0"]

/-- Go `l2.isPrefixOf`-style occurrence test: does `pat` occur as a contiguous
sublist of `s`? (Executable counterpart of substring containment, used to
model Go `strings.Replace` finding an occurrence and substring checks.) -/
def occursIn (pat : List Char) : List Char → Bool
  | [] => pat.isEmpty
  | c :: rest => pat.isPrefixOf (c :: rest) || occursIn pat rest

/-- Remove the first occurrence of `pat` (leaving the list unchanged when
`pat` does not occur): character-level model of Go
`strings.Replace(s, pat, "", 1)` for nonempty `pat`. -/
def stripFirst (pat : List Char) : List Char → List Char
  | [] => []
  | c :: rest =>
    if pat.isPrefixOf (c :: rest) then (c :: rest).drop pat.length
    else c :: stripFirst pat rest

/-- Go `strings.Replace(s, "RouterOS", "", 1)` as used in the system
description mapping of `GetDevice`. -/
def replaceRouterOS (s : String) : String :=
  String.mk (stripFirst "RouterOS".data s.data)

/-- Substring test on Lean strings (true iff `pat` occurs contiguously in
`s`), used to state facts about error-message contents. -/
def containsStr (pat s : String) : Bool :=
  occursIn pat.data s.data

/-- The body of the `switch variable.Name` dispatch in `GetDevice`, for a
variable whose value decoded to the byte string `s`: arms in source order;
an address outside the known set is only printed, the record is unchanged. -/
def dispatchOid (device : Device) (name : String) (s : String) : Device :=
  if name = ".1.3.6.1.4.1.14988.1.1.4.4.0" then
    { device with Version := { device.Version with RouterOS := s } }
  else if name = ".1.3.6.1.4.1.14988.1.1.7.7.0" then
    { device with Version := { device.Version with Latest := s } }
  else if name = ".1.3.6.1.4.1.14988.1.1.7.4.0" then
    { device with Version := { device.Version with Bootloader := s } }
  else if name = ".1.3.6.1.2.1.1.1.0" then
    { device with Model := replaceRouterOS s }
  else if name = ".1.3.6.1.2.1.1.5.0" then
    { device with Name := s }
  else device

/-- One iteration of the mapping loop of `GetDevice`: every arm of the switch
(the five known OIDs and the default print) type-asserts `Value.([]byte)`;
`none` models the panic on a non-byte value. -/
def applyVar (device : Device) (v : SnmpPDU) : Option Device :=
  match v.Value with
  | .bytes s => some (dispatchOid device v.Name s)
  | .int _ => none

/-- The whole mapping loop of `GetDevice` over `result.Variables`: threads the
record through `applyVar`; a panic (`none`) aborts the remainder. -/
def applyVars (vars : List SnmpPDU) (device : Device) : Option Device :=
  match vars with
  | [] => some device
  | v :: rest =>
    match applyVar device v with
    | some d => applyVars rest d
    | none => none

/-- Transport oracle for one poll: the outcome of `gosnmp.Default.Connect()`
(`some msg` = error) and of `gosnmp.Default.Get(oids)` (error or the list of
returned variable bindings). -/
structure NetEnv where
  connectErr : Option String
  getResult : Except String (List SnmpPDU)

/-- The observable outcome of one `GetDevice` call: the record as left by the
call, the returned error, and whether the batch `Get` was issued. -/
structure PollOutcome where
  device : Device
  error : Option String
  batchIssued : Bool
deriving DecidableEq

/-- `Device.GetDevice`: configure the shared handle, connect (a failure
returns the error `fehler beim Verbinden: <err>` without issuing the batch),
issue the batch `Get` (a failure returns `<host> Fehler bei der
SNMP-Anfrage: <err>`), set `Reached` and run the mapping loop. The outer
`none` models the run-time panic of a failed type assertion aborting the
poll. -/
def GetDevice (device : Device) (g : GoSnmp) (net : NetEnv) :
    GoSnmp × Option PollOutcome :=
  let g1 := SNMPConfigure device g
  match net.connectErr with
  | some e =>
    (g1, some { device := device
                error := some ("fehler beim Verbinden: " ++ e)
                batchIssued := false })
  | none =>
    match net.getResult with
    | .error e2 =>
      (g1, some { device := device
                  error := some (device.Host ++ " Fehler bei der SNMP-Anfrage: " ++ e2)
                  batchIssued := true })
    | .ok vars =>
      match applyVars vars { device with Reached := true } with
      | none => (g1, none)
      | some d' => (g1, some { device := d', error := none, batchIssued := true })

/-- The per-device outcome of a poll, as a function of that device's own
descriptor and transport behaviour alone (the outcome component of
`GetDevice` does not depend on the session state). -/
def pollOutcome (device : Device) (net : NetEnv) : Option PollOutcome :=
  (GetDevice device defaultGoSnmp net).2

/-- The fleet loop of the package's documented usage: poll each device in
turn, threading the shared session handle through the calls. -/
def pollFleet (pairs : List (Device × NetEnv)) (g : GoSnmp) :
    GoSnmp × List (Option PollOutcome) :=
  match pairs with
  | [] => (g, [])
  | p :: rest =>
    let r := GetDevice p.1 g p.2
    let rr := pollFleet rest r.1
    (rr.1, r.2 :: rr.2)

/-- The byte string carried by the last binding for `oid` in `vars` (the
value a sequential overwrite loop leaves in the corresponding field), if
any. -/
def lastBytesFor (oid : String) : List SnmpPDU → Option String
  | [] => none
  | v :: rest =>
    match lastBytesFor oid rest with
    | some s => some s
    | none =>
      match v.Value with
      | .bytes s => if v.Name = oid then some s else none
      | .int _ => none

/-- Is this OID one of the five addresses the switch stores? -/
def knownOid (name : String) : Bool :=
  name = ".1.3.6.1.4.1.14988.1.1.4.4.0" || name = ".1.3.6.1.4.1.14988.1.1.7.7.0" ||
  name = ".1.3.6.1.4.1.14988.1.1.7.4.0" || name = ".1.3.6.1.2.1.1.1.0" ||
  name = ".1.3.6.1.2.1.1.5.0"

/-- JSON values, as produced by Go `encoding/json` for this package's types:
strings, booleans, objects (field order = struct declaration order) and
arrays. -/
inductive Json where
  | jstr (s : String)
  | jbool (b : Bool)
  | jobj (fields : List (String × Json))
  | jarr (elems : List Json)

/-- JSON escaping of one character (quote and backslash, the escapes relevant
to this package's data). -/
def escapeJsonChar (c : Char) : String :=
  if c = '"' then "\\\"" else if c = '\\' then "\\\\" else String.singleton c

/-- JSON escaping of a string body. -/
def escapeJson (s : String) : String :=
  String.join (s.data.map escapeJsonChar)

mutual

/-- Render a `Json` value to its serialized text, as `encoding/json` does
(no added whitespace). -/
def Json.render : Json → String
  | .jstr s => "\"" ++ escapeJson s ++ "\""
  | .jbool b => if b then "true" else "false"
  | .jobj fields => "\x7b" ++ renderMembers fields ++ "\x7d"
  | .jarr elems => "[" ++ renderItems elems ++ "]"

/-- Comma-separated `"key":value` members of a JSON object. -/
def renderMembers : List (String × Json) → String
  | [] => ""
  | [(k, v)] => "\"" ++ escapeJson k ++ "\":" ++ Json.render v
  | (k, v) :: rest =>
    "\"" ++ escapeJson k ++ "\":" ++ Json.render v ++ "," ++ renderMembers rest

/-- Comma-separated items of a JSON array. -/
def renderItems : List Json → String
  | [] => ""
  | [v] => Json.render v
  | v :: rest => Json.render v ++ "," ++ renderItems rest

end

/-- `encoding/json` marshalling of `Authentication`: `Protocol` and
`Passphrase` are tagged with the json dash tag and omitted; the remaining
field is exported under its declared name. -/
def Authentication.toJson (a : Authentication) : Json :=
  .jobj [("Active", .jbool a.Active)]

/-- `encoding/json` marshalling of `Privacy`: `Protocol` and `Passphrase`
are omitted by their dash tags. -/
def Privacy.toJson (p : Privacy) : Json :=
  .jobj [("Active", .jbool p.Active)]

/-- `encoding/json` marshalling of `SNMP`: `Community` is omitted by its dash
tag; the other fields are exported under their declared names in declaration
order. -/
def SNMP.toJson (s : SNMP) : Json :=
  .jobj [("Version", .jstr s.Version),
         ("Authentication", s.Authentication.toJson),
         ("Privacy", s.Privacy.toJson)]

/-- `encoding/json` marshalling of `Version`. -/
def Version.toJson (v : Version) : Json :=
  .jobj [("RouterOS", .jstr v.RouterOS),
         ("Bootloader", .jstr v.Bootloader),
         ("Latest", .jstr v.Latest)]

/-- `encoding/json` marshalling of `Device`: every field is exported under
its declared name (none of `Device`'s own fields carries a tag). -/
def Device.toJson (d : Device) : Json :=
  .jobj [("Reached", .jbool d.Reached),
         ("Host", .jstr d.Host),
         ("Model", .jstr d.Model),
         ("Name", .jstr d.Name),
         ("SNMP", d.SNMP.toJson),
         ("Version", d.Version.toJson)]

/-- `Devices.ResultJson`: `json.Marshal` of the device slice, returned as a
string. -/
def Devices.ResultJson (devices : Devices) : String :=
  Json.render (.jarr (devices.map Device.toJson))

/-- Overwrite exactly the five secret fields of a device (the community
string, the authentication protocol name and passphrase, and the privacy
protocol name and passphrase), leaving every other field unchanged. -/
def setSecrets (d : Device) (community authProto authPass privProto privPass : String) :
    Device :=
  { d with SNMP :=
    { d.SNMP with
      Community := community
      Authentication :=
        { d.SNMP.Authentication with Protocol := authProto, Passphrase := authPass }
      Privacy :=
        { d.SNMP.Privacy with Protocol := privProto, Passphrase := privPass } } }

/-! ### Helper lemmas about the mapping loop -/

theorem dispatchOid_RouterOS (d : Device) (n s : String) :
    (dispatchOid d n s).Version.RouterOS =
      if n = ".1.3.6.1.4.1.14988.1.1.4.4.0" then s else d.Version.RouterOS := by
  unfold dispatchOid
  split_ifs <;> simp_all

theorem dispatchOid_Latest (d : Device) (n s : String) :
    (dispatchOid d n s).Version.Latest =
      if n = ".1.3.6.1.4.1.14988.1.1.7.7.0" then s else d.Version.Latest := by
  unfold dispatchOid
  split_ifs <;> simp_all

theorem dispatchOid_Bootloader (d : Device) (n s : String) :
    (dispatchOid d n s).Version.Bootloader =
      if n = ".1.3.6.1.4.1.14988.1.1.7.4.0" then s else d.Version.Bootloader := by
  unfold dispatchOid
  split_ifs <;> simp_all

theorem dispatchOid_Model (d : Device) (n s : String) :
    (dispatchOid d n s).Model =
      if n = ".1.3.6.1.2.1.1.1.0" then replaceRouterOS s else d.Model := by
  unfold dispatchOid
  split_ifs <;> simp_all

theorem dispatchOid_Name (d : Device) (n s : String) :
    (dispatchOid d n s).Name =
      if n = ".1.3.6.1.2.1.1.5.0" then s else d.Name := by
  unfold dispatchOid
  split_ifs <;> simp_all

theorem dispatchOid_Reached (d : Device) (n s : String) :
    (dispatchOid d n s).Reached = d.Reached := by
  unfold dispatchOid
  split_ifs <;> rfl

theorem dispatchOid_Host (d : Device) (n s : String) :
    (dispatchOid d n s).Host = d.Host := by
  unfold dispatchOid
  split_ifs <;> rfl

theorem dispatchOid_SNMP (d : Device) (n s : String) :
    (dispatchOid d n s).SNMP = d.SNMP := by
  unfold dispatchOid
  split_ifs <;> rfl

/-- An address outside the known set leaves the record unchanged (the switch
default only prints). -/
theorem dispatchOid_unknown (d : Device) (n s : String) (h : knownOid n = false) :
    dispatchOid d n s = d := by
  simp only [knownOid, Bool.or_eq_false_iff, decide_eq_false_iff_not] at h
  unfold dispatchOid
  rw [if_neg h.1.1.1.1, if_neg h.1.1.1.2, if_neg h.1.1.2, if_neg h.1.2, if_neg h.2]

/-- Generic characterization of one string field of the record after the
mapping loop: it holds the (transformed) value of the last binding for its
OID, or its previous content if no binding for that OID survived. -/
theorem applyVars_proj (oid : String) (f : Device → String) (tr : String → String)
    (hf : ∀ d n s, f (dispatchOid d n s) = if n = oid then tr s else f d) :
    ∀ (vars : List SnmpPDU) (d d' : Device), applyVars vars d = some d' →
      f d' = ((lastBytesFor oid vars).map tr).getD (f d) := by
  intro vars
  induction vars with
  | nil =>
    intro d d' h
    simp only [applyVars, Option.some.injEq] at h
    subst h
    rfl
  | cons v rest ih =>
    intro d d' h
    cases hval : v.Value with
    | int k =>
      simp [applyVars, applyVar, hval] at h
    | bytes s =>
      simp only [applyVars, applyVar, hval] at h
      have hrec := ih (dispatchOid d v.Name s) d' h
      rw [hf] at hrec
      cases hrest : lastBytesFor oid rest with
      | some t =>
        simp only [hrest, Option.map_some, Option.getD_some] at hrec
        simp only [lastBytesFor, hrest, Option.map_some, Option.getD_some]
        exact hrec
      | none =>
        simp only [hrest, Option.map_none, Option.getD_none] at hrec
        simp only [lastBytesFor, hrest, hval]
        by_cases hn : v.Name = oid
        · simp only [hn, if_pos rfl] at hrec ⊢
          simpa using hrec
        · simp only [if_neg hn] at hrec ⊢
          simpa using hrec

/-- The mapping loop never touches a field the switch does not assign to
(in particular reachability, host and SNMP configuration). -/
theorem applyVars_inv {α : Type} (f : Device → α)
    (hf : ∀ d n s, f (dispatchOid d n s) = f d) :
    ∀ (vars : List SnmpPDU) (d d' : Device), applyVars vars d = some d' → f d' = f d := by
  intro vars
  induction vars with
  | nil =>
    intro d d' h
    simp only [applyVars, Option.some.injEq] at h
    subst h
    rfl
  | cons v rest ih =>
    intro d d' h
    cases hval : v.Value with
    | int k => simp [applyVars, applyVar, hval] at h
    | bytes s =>
      simp only [applyVars, applyVar, hval] at h
      rw [ih (dispatchOid d v.Name s) d' h, hf]

/-- The mapping loop terminates normally exactly when every returned value is
a byte buffer (otherwise some type assertion panics). -/
theorem applyVars_isSome (vars : List SnmpPDU) (d : Device) :
    (applyVars vars d).isSome = vars.all (fun p => p.Value.isBytes) := by
  induction vars generalizing d with
  | nil => rfl
  | cons v rest ih =>
    cases hval : v.Value with
    | int k => simp [applyVars, applyVar, hval, GoValue.isBytes]
    | bytes s => simp [applyVars, applyVar, hval, GoValue.isBytes, ih]

/-- Inserting a byte-buffer binding for an address outside the known set
anywhere in the response leaves the mapping result unchanged. -/
theorem applyVars_unknown_insert (l1 : List SnmpPDU) (x : SnmpPDU) (l2 : List SnmpPDU)
    (d : Device) (hk : knownOid x.Name = false) (hb : x.Value.isBytes = true) :
    applyVars (l1 ++ x :: l2) d = applyVars (l1 ++ l2) d := by
  induction l1 generalizing d with
  | nil =>
    cases hval : x.Value with
    | int k => rw [hval] at hb; simp [GoValue.isBytes] at hb
    | bytes s =>
      simp only [List.nil_append, applyVars, applyVar, hval,
        dispatchOid_unknown _ _ _ hk]
  | cons v rest ih =>
    cases hval : v.Value with
    | int k => simp [applyVars, applyVar, hval]
    | bytes s => simp [applyVars, applyVar, hval, ih]

/-- The outcome component of `GetDevice` does not depend on the incoming
session state (only the session component does). -/
theorem getDevice_snd (d : Device) (g g' : GoSnmp) (net : NetEnv) :
    (GetDevice d g net).2 = (GetDevice d g' net).2 := by
  rcases net with ⟨ce, gr⟩
  cases ce with
  | some e => rfl
  | none =>
    cases gr with
    | error e => rfl
    | ok vars =>
      cases happ : applyVars vars { d with Reached := true } <;>
        simp [GetDevice, happ]

/-- The fleet loop's outcomes are exactly the per-device outcomes: each
depends only on that device's own descriptor and transport behaviour. -/
theorem pollFleet_snd (pairs : List (Device × NetEnv)) (g : GoSnmp) :
    (pollFleet pairs g).2 = pairs.map (fun p => pollOutcome p.1 p.2) := by
  induction pairs generalizing g with
  | nil => rfl
  | cons p rest ih =>
    simp only [pollFleet, List.map_cons, ih]
    rw [show (GetDevice p.1 g p.2).2 = pollOutcome p.1 p.2 from
      getDevice_snd p.1 g defaultGoSnmp p.2]

/-! ### Helper lemmas about first-occurrence removal -/

/-- When `pat` occurs in `s`, `stripFirst` removes exactly one occurrence's
worth of characters. -/
theorem stripFirst_length (pat s : List Char) (h : occursIn pat s = true) :
    (stripFirst pat s).length + pat.length = s.length := by
  induction s with
  | nil =>
    simp only [occursIn, List.isEmpty_iff] at h
    simp [stripFirst, h]
  | cons c rest ih =>
    by_cases hp : pat.isPrefixOf (c :: rest)
    · have hle : pat.length ≤ (c :: rest).length :=
        (List.isPrefixOf_iff_prefix.mp hp).length_le
      simp only [stripFirst, if_pos hp, List.length_drop]
      omega
    · simp only [occursIn, Bool.or_eq_true] at h
      rcases h with h | h
      · exact absurd h hp
      · simp only [stripFirst, if_neg hp, List.length_cons]
        have := ih h
        omega

/-- When `pat` does not occur in `s`, `stripFirst` leaves `s` unchanged. -/
theorem stripFirst_not_occurs (pat s : List Char) (h : occursIn pat s = false) :
    stripFirst pat s = s := by
  induction s with
  | nil => rfl
  | cons c rest ih =>
    simp only [occursIn, Bool.or_eq_false_iff] at h
    simp only [stripFirst, h.1, Bool.false_eq_true, if_false, ih h.2]

/-! ### Concrete fixtures used by counterexamples and witnesses -/

/-- A plain v2c device with nothing enabled. -/
def baseDevice : Device :=
  { Reached := false, Host := "192.0.2.1", Model := "", Name := "",
    SNMP := { Version := "2c", Community := "public",
              Authentication := { Active := false, Protocol := "", Passphrase := "" },
              Privacy := { Active := false, Protocol := "", Passphrase := "" } },
    Version := { RouterOS := "", Bootloader := "", Latest := "" } }

/-- A v2c device with authentication marked active. -/
def dev2cAuth : Device :=
  { Reached := false, Host := "router1", Model := "", Name := "",
    SNMP := { Version := "2c", Community := "comm",
              Authentication := { Active := true, Protocol := "SHA1", Passphrase := "pw" },
              Privacy := { Active := false, Protocol := "", Passphrase := "" } },
    Version := { RouterOS := "", Bootloader := "", Latest := "" } }

/-- A v2c device with neither block active. -/
def dev2cPlain : Device :=
  { Reached := false, Host := "router2", Model := "", Name := "",
    SNMP := { Version := "2c", Community := "comm2",
              Authentication := { Active := false, Protocol := "", Passphrase := "" },
              Privacy := { Active := false, Protocol := "", Passphrase := "" } },
    Version := { RouterOS := "", Bootloader := "", Latest := "" } }

/-- A v3 device with both blocks disabled. -/
def dev3Plain : Device :=
  { Reached := false, Host := "router3", Model := "", Name := "",
    SNMP := { Version := "3", Community := "comm3",
              Authentication := { Active := false, Protocol := "", Passphrase := "" },
              Privacy := { Active := false, Protocol := "", Passphrase := "" } },
    Version := { RouterOS := "", Bootloader := "", Latest := "" } }

/-- A v3 device with authentication active. -/
def dev3Auth : Device :=
  { Reached := false, Host := "router4", Model := "", Name := "",
    SNMP := { Version := "3", Community := "comm4",
              Authentication := { Active := true, Protocol := "MD5", Passphrase := "pw4" },
              Privacy := { Active := false, Protocol := "", Passphrase := "" } },
    Version := { RouterOS := "", Bootloader := "", Latest := "" } }

/-- A device whose version string is neither "2c" nor "3" (as in the
README's `version: "2"` example). -/
def devBadVer : Device :=
  { Reached := false, Host := "router5", Model := "", Name := "",
    SNMP := { Version := "2", Community := "comm5",
              Authentication := { Active := false, Protocol := "", Passphrase := "" },
              Privacy := { Active := false, Protocol := "", Passphrase := "" } },
    Version := { RouterOS := "", Bootloader := "", Latest := "" } }

/-- A batch response carrying byte values for all five known addresses. -/
def varsAllFive : List SnmpPDU :=
  [⟨".1.3.6.1.4.1.14988.1.1.4.4.0", .bytes "7.1"⟩,
   ⟨".1.3.6.1.4.1.14988.1.1.7.4.0", .bytes "7.0.3"⟩,
   ⟨".1.3.6.1.4.1.14988.1.1.7.7.0", .bytes "7.2"⟩,
   ⟨".1.3.6.1.2.1.1.1.0", .bytes "RouterOS RB1100"⟩,
   ⟨".1.3.6.1.2.1.1.5.0", .bytes "core-router"⟩]

/-- `varsAllFive` plus one extra pair at an unknown address carrying a
non-byte (integer) value, as SNMP returns for e.g. sysUpTime. -/
def varsFivePlusInt : List SnmpPDU :=
  varsAllFive ++ [⟨".1.3.6.1.2.1.1.3.0", .int 12345⟩]

/-- `varsAllFive` plus one extra byte-valued pair at an unknown address. -/
def varsFivePlusBytes : List SnmpPDU :=
  varsAllFive ++ [⟨".1.3.6.1.2.1.1.6.0", .bytes "rack 7"⟩]

/-! ### Claim theorems -/

/-- Claim C1 (confirmed): the string `ResultJson` returns is invariant under
any change of the secret fields of any device (community string,
authentication protocol name and passphrase, privacy protocol name and
passphrase) — so no secret can influence, let alone appear in, the output —
while every other `Device` field is exported under its declared name
(`Reached`, `Host`, `Model`, `Name`, `SNMP.Version`,
`SNMP.Authentication.Active`, `SNMP.Privacy.Active`, `Version.RouterOS`,
`Version.Bootloader`, `Version.Latest`). -/
theorem C1_resultJson_excludes_secrets :
    (∀ (devices : Devices) (community authProto authPass privProto privPass : String),
      Devices.ResultJson (devices.map
        (fun d => setSecrets d community authProto authPass privProto privPass)) =
        Devices.ResultJson devices)
    ∧ (∀ d : Device, Device.toJson d =
        Json.jobj [("Reached", Json.jbool d.Reached), ("Host", Json.jstr d.Host),
                   ("Model", Json.jstr d.Model), ("Name", Json.jstr d.Name),
                   ("SNMP", Json.jobj [("Version", Json.jstr d.SNMP.Version),
                     ("Authentication",
                       Json.jobj [("Active", Json.jbool d.SNMP.Authentication.Active)]),
                     ("Privacy",
                       Json.jobj [("Active", Json.jbool d.SNMP.Privacy.Active)])]),
                   ("Version", Json.jobj [("RouterOS", Json.jstr d.Version.RouterOS),
                     ("Bootloader", Json.jstr d.Version.Bootloader),
                     ("Latest", Json.jstr d.Version.Latest)])]) := by
  constructor
  · intro ds c ap aps pp pps
    unfold Devices.ResultJson
    rw [List.map_map]
    rfl
  · intro d
    rfl

/-- Claim C2 (confirmed): when a poll resolves (no mapping panic), the
record's `Reached` flag — initially false — ends true exactly when the
connect succeeded and the batch `Get` returned without error; missing or
unmapped values in a successful batch do not matter (the flag is set before
the loop and never touched by it). -/
theorem C2_reached_iff_batch_ok (device : Device) (g : GoSnmp) (net : NetEnv)
    (out : PollOutcome) (h0 : device.Reached = false)
    (h : (GetDevice device g net).2 = some out) :
    (out.device.Reached = true ↔
      net.connectErr = none ∧ ∃ vars, net.getResult = Except.ok vars) := by
  rcases net with ⟨ce, gr⟩
  cases ce with
  | some e =>
    simp only [GetDevice, Option.some.injEq] at h
    subst h
    simp [h0]
  | none =>
    cases gr with
    | error e =>
      simp only [GetDevice, Option.some.injEq] at h
      subst h
      simp [h0]
    | ok vars =>
      cases happ : applyVars vars { device with Reached := true } with
      | none => simp [GetDevice, happ] at h
      | some d' =>
        simp only [GetDevice, happ, Option.some.injEq] at h
        subst h
        have hr : d'.Reached = ({ device with Reached := true } : Device).Reached :=
          applyVars_inv (fun d => d.Reached) dispatchOid_Reached vars _ _ happ
        simp only at hr
        simp [hr]

/-- Witness for C2 at a concrete input: an empty but successful batch
response still flips the flag to true. -/
theorem C2_witness :
    (({ device := { baseDevice with Reached := true }, error := none,
        batchIssued := true } : PollOutcome).device.Reached = true ↔
      (({ connectErr := none, getResult := Except.ok [] } : NetEnv).connectErr = none ∧
        ∃ vars, ({ connectErr := none, getResult := Except.ok [] } : NetEnv).getResult =
          Except.ok vars)) :=
  C2_reached_iff_batch_ok baseDevice defaultGoSnmp
    { connectErr := none, getResult := Except.ok [] }
    { device := { baseDevice with Reached := true }, error := none, batchIssued := true }
    rfl rfl

/-- Claim C3 is false on the code: the security-bundle attachment in
`SNMPConfigure` is outside the version switch, so a version-"2c" descriptor
with an active authentication block does get a `UsmSecurityParameters`
bundle attached — refuting "never attaches a security-parameters bundle ...
regardless of whether the descriptor's authentication or privacy blocks are
marked active" at this concrete input. -/
theorem C3_counterexample :
    dev2cAuth.SNMP.Version = "2c" ∧
    (SNMPConfigure dev2cAuth defaultGoSnmp).SecurityParameters ≠ none := by
  decide

/-- Claim C3 (amended): under version "2c", `SNMPConfigure` attaches a
security-parameters bundle exactly when authentication or privacy is marked
active (the attachment is version-independent); with both blocks inactive
the security-parameters field is left as the previous configuration had it,
so no bundle is attached. -/
theorem C3_v2c_bundle_iff_active (device : Device) (g : GoSnmp)
    (h : device.SNMP.Version = "2c") :
    (SNMPConfigure device g).SecurityParameters =
      (if device.SNMP.Authentication.Active || device.SNMP.Privacy.Active
       then some (usmSecurityParametersFor device) else g.SecurityParameters) := by
  simp only [SNMPConfigure, h]
  split_ifs <;> rfl

/-- Witness for C3 (amended) at a concrete input: a plain v2c descriptor on
the fresh default session attaches nothing. -/
theorem C3_witness :
    (SNMPConfigure dev2cPlain defaultGoSnmp).SecurityParameters =
      (if dev2cPlain.SNMP.Authentication.Active || dev2cPlain.SNMP.Privacy.Active
       then some (usmSecurityParametersFor dev2cPlain)
       else defaultGoSnmp.SecurityParameters) :=
  C3_v2c_bundle_iff_active dev2cPlain defaultGoSnmp (by decide)

/-- Claim C6 is false on the code in its "version-only security" part: for a
version-"3" descriptor with both blocks disabled no bundle is attached, but
the version-3 switch arm unconditionally sets the security model to the user
security model and the message flags to AuthPriv, so the session does carry
an authentication/privacy requirement beyond the protocol version
selection. -/
theorem C6_counterexample :
    dev3Plain.SNMP.Version = "3" ∧
    dev3Plain.SNMP.Authentication.Active = false ∧
    dev3Plain.SNMP.Privacy.Active = false ∧
    (SNMPConfigure dev3Plain defaultGoSnmp).MsgFlags = SnmpV3MsgFlags.AuthPriv ∧
    (SNMPConfigure dev3Plain defaultGoSnmp).SecurityModel =
      SnmpV3SecurityModel.UserSecurityModel := by
  decide

/-- Claim C6 (amended): for a version-"3" descriptor with authentication and
privacy both disabled, `SNMPConfigure` attaches no security-parameters
bundle (the field is left unchanged, hence `none` on a fresh session), but
the session is not version-only: the version-3 arm still sets the user
security model and AuthPriv message flags. -/
theorem C6_v3_disabled_no_bundle (device : Device) (g : GoSnmp)
    (h : device.SNMP.Version = "3")
    (ha : device.SNMP.Authentication.Active = false)
    (hp : device.SNMP.Privacy.Active = false) :
    (SNMPConfigure device g).SecurityParameters = g.SecurityParameters ∧
    (SNMPConfigure device g).Version = SnmpVersion.Version3 ∧
    (SNMPConfigure device g).SecurityModel = SnmpV3SecurityModel.UserSecurityModel ∧
    (SNMPConfigure device g).MsgFlags = SnmpV3MsgFlags.AuthPriv := by
  simp [SNMPConfigure, h, ha, hp]

/-- Witness for C6 (amended) at a concrete input. -/
theorem C6_witness :
    (SNMPConfigure dev3Plain defaultGoSnmp).SecurityParameters =
      defaultGoSnmp.SecurityParameters ∧
    (SNMPConfigure dev3Plain defaultGoSnmp).Version = SnmpVersion.Version3 ∧
    (SNMPConfigure dev3Plain defaultGoSnmp).SecurityModel =
      SnmpV3SecurityModel.UserSecurityModel ∧
    (SNMPConfigure dev3Plain defaultGoSnmp).MsgFlags = SnmpV3MsgFlags.AuthPriv :=
  C6_v3_disabled_no_bundle dev3Plain defaultGoSnmp rfl rfl rfl

/-- Claim C9 is false on the code: the version switch has no default arm, so
a descriptor with an unrecognized version string inherits whatever a
previously configured device left on the shared handle — here, after a
version-"3" device with authentication active, an invalid-version descriptor
keeps SNMPv3 and the stale security bundle, not the lowest-security path. -/
theorem C9_counterexample :
    devBadVer.SNMP.Version ≠ "2c" ∧ devBadVer.SNMP.Version ≠ "3" ∧
    (SNMPConfigure devBadVer (SNMPConfigure dev3Auth defaultGoSnmp)).Version =
      SnmpVersion.Version3 ∧
    (SNMPConfigure devBadVer (SNMPConfigure dev3Auth defaultGoSnmp)).SecurityParameters ≠
      none := by
  decide

/-- Claim C9 (amended): for a descriptor whose version string is neither
"2c" nor "3", `SNMPConfigure` leaves version, security model and message
flags exactly as the previous configuration of the shared handle had them —
the lowest-security path results only when the prior state already carried
it (e.g. the fresh default session) — and, with both security blocks
inactive, also leaves the security-parameters field unchanged. -/
theorem C9_invalid_version_keeps_state (device : Device) (g : GoSnmp)
    (h2 : device.SNMP.Version ≠ "2c") (h3 : device.SNMP.Version ≠ "3") :
    (SNMPConfigure device g).Version = g.Version ∧
    (SNMPConfigure device g).SecurityModel = g.SecurityModel ∧
    (SNMPConfigure device g).MsgFlags = g.MsgFlags ∧
    (device.SNMP.Authentication.Active = false →
      device.SNMP.Privacy.Active = false →
      (SNMPConfigure device g).SecurityParameters = g.SecurityParameters) := by
  refine ⟨?_, ?_, ?_, fun ha hp => ?_⟩
  · simp [SNMPConfigure, h2, h3]
    split_ifs <;> rfl
  · simp [SNMPConfigure, h2, h3]
    split_ifs <;> rfl
  · simp [SNMPConfigure, h2, h3]
    split_ifs <;> rfl
  · simp [SNMPConfigure, h2, h3, ha, hp]

/-- Witness for C9 (amended) at a concrete input: the README's
`version: "2"` device on the fresh default session keeps Version2c. -/
theorem C9_witness :
    (SNMPConfigure devBadVer defaultGoSnmp).Version = defaultGoSnmp.Version ∧
    (SNMPConfigure devBadVer defaultGoSnmp).SecurityModel = defaultGoSnmp.SecurityModel ∧
    (SNMPConfigure devBadVer defaultGoSnmp).MsgFlags = defaultGoSnmp.MsgFlags ∧
    (devBadVer.SNMP.Authentication.Active = false →
      devBadVer.SNMP.Privacy.Active = false →
      (SNMPConfigure devBadVer defaultGoSnmp).SecurityParameters =
        defaultGoSnmp.SecurityParameters) :=
  C9_invalid_version_keeps_state devBadVer defaultGoSnmp (by decide) (by decide)

/-- Claim C7 (confirmed): for an `Authentication` whose protocol name is
neither "SHA1" nor "MD5", `GetProtocol` returns the fixed default SHA; for a
`Privacy` whose protocol name is neither "DES" nor "AES", `GetProtocol`
returns the fixed default DES; both functions are total (no error path) and
the defaults are real algorithm constants, not the zero/empty value. -/
theorem C7_getProtocol_defaults :
    (∀ auth : Authentication, auth.Protocol ≠ "SHA1" → auth.Protocol ≠ "MD5" →
      auth.GetProtocol = SnmpV3AuthProtocol.SHA)
    ∧ (∀ priv : Privacy, priv.Protocol ≠ "DES" → priv.Protocol ≠ "AES" →
      priv.GetProtocol = SnmpV3PrivProtocol.DES)
    ∧ SnmpV3AuthProtocol.SHA ≠ SnmpV3AuthProtocol.unspecified
    ∧ SnmpV3PrivProtocol.DES ≠ SnmpV3PrivProtocol.unspecified := by
  refine ⟨?_, ?_, by decide, by decide⟩
  · intro a h1 h2
    simp [Authentication.GetProtocol, h1, h2]
  · intro p h1 h2
    simp [Privacy.GetProtocol, h1, h2]

/-- Witness for C7 at concrete unrecognized protocol names. -/
theorem C7_witness :
    ({ Active := true, Protocol := "SHA256", Passphrase := "x" } :
        Authentication).GetProtocol = SnmpV3AuthProtocol.SHA
    ∧ ({ Active := true, Protocol := "AES256", Passphrase := "x" } :
        Privacy).GetProtocol = SnmpV3PrivProtocol.DES :=
  ⟨C7_getProtocol_defaults.1 _ (by decide) (by decide),
   C7_getProtocol_defaults.2.1 _ (by decide) (by decide)⟩

/-- Claim C4 is false on the code in its error-message part: the
connect-failure error is built as `fehler beim Verbinden: <err>` without the
device host, so when the transport error text does not mention the host the
returned message does not contain the host string (here host "192.0.2.1",
transport error "timeout"). -/
theorem C4_counterexample :
    pollOutcome baseDevice { connectErr := some "timeout", getResult := Except.ok [] } =
      some { device := baseDevice,
             error := some "fehler beim Verbinden: timeout",
             batchIssued := false }
    ∧ containsStr baseDevice.Host "fehler beim Verbinden: timeout" = false := by
  exact ⟨rfl, by decide⟩

/-- Claim C4 (amended): on a connect failure `GetDevice` returns the error
`fehler beim Verbinden: <transport error>` — which names the host only when
the transport error text happens to — returns the record unchanged (so a
reachability flag that was false stays false) and issues no batch request;
and the outcome of every device in a fleet poll is a function of that
device's own descriptor and transport behaviour alone, so one device's
connect failure cannot change any other device's outcome. -/
theorem C4_connect_failure_semantics :
    (∀ (device : Device) (g : GoSnmp) (net : NetEnv) (e : String),
      net.connectErr = some e →
      (GetDevice device g net).2 =
        some { device := device,
               error := some ("fehler beim Verbinden: " ++ e),
               batchIssued := false })
    ∧ (∀ (pairs : List (Device × NetEnv)) (g : GoSnmp),
      (pollFleet pairs g).2 = pairs.map fun p => pollOutcome p.1 p.2) := by
  constructor
  · intro device g net e he
    rcases net with ⟨ce, gr⟩
    cases he
    rfl
  · exact pollFleet_snd

/-- Witness for C4 (amended) at a concrete input. -/
theorem C4_witness :
    (GetDevice dev2cPlain defaultGoSnmp
        { connectErr := some "connection refused", getResult := Except.ok [] }).2 =
      some { device := dev2cPlain,
             error := some ("fehler beim Verbinden: " ++ "connection refused"),
             batchIssued := false } :=
  C4_connect_failure_semantics.1 dev2cPlain defaultGoSnmp
    { connectErr := some "connection refused", getResult := Except.ok [] }
    "connection refused" rfl

/-- Claim C5 is false on the code as universally stated: a successful batch
response carrying byte values for all five known addresses plus one
additional pair at an unknown address whose value is not a byte buffer does
not leave the record unaffected — the default switch arm also type-asserts
the value, so the whole poll aborts and no record with `reachable = true`
and no error is produced. -/
theorem C5_counterexample :
    lastBytesFor ".1.3.6.1.4.1.14988.1.1.4.4.0" varsFivePlusInt = some "7.1" ∧
    lastBytesFor ".1.3.6.1.4.1.14988.1.1.7.7.0" varsFivePlusInt = some "7.2" ∧
    lastBytesFor ".1.3.6.1.4.1.14988.1.1.7.4.0" varsFivePlusInt = some "7.0.3" ∧
    lastBytesFor ".1.3.6.1.2.1.1.1.0" varsFivePlusInt = some "RouterOS RB1100" ∧
    lastBytesFor ".1.3.6.1.2.1.1.5.0" varsFivePlusInt = some "core-router" ∧
    (GetDevice baseDevice defaultGoSnmp
      { connectErr := none, getResult := Except.ok varsFivePlusInt }).2 = none := by
  decide

/-- Claim C5 (amended): for a successful batch response all of whose values
are byte buffers and which carries a binding for each of the five known
addresses, `GetDevice` returns no error and a record with `reachable = true`
whose firmware, latest, bootloader, model (with one "RouterOS" occurrence
stripped) and name fields hold the corresponding (latest) values, host and
SNMP configuration unchanged; and inserting an additional byte-buffer pair
at an address outside the known set anywhere in a response changes nothing
in the mapping result. Extra pairs with non-byte values are excluded: they
abort the poll (see the counterexample). -/
theorem C5_full_batch_populates :
    (∀ (device : Device) (g : GoSnmp) (vars : List SnmpPDU) (v1 v2 v3 v4 v5 : String),
      vars.all (fun p => p.Value.isBytes) = true →
      lastBytesFor ".1.3.6.1.4.1.14988.1.1.4.4.0" vars = some v1 →
      lastBytesFor ".1.3.6.1.4.1.14988.1.1.7.7.0" vars = some v2 →
      lastBytesFor ".1.3.6.1.4.1.14988.1.1.7.4.0" vars = some v3 →
      lastBytesFor ".1.3.6.1.2.1.1.1.0" vars = some v4 →
      lastBytesFor ".1.3.6.1.2.1.1.5.0" vars = some v5 →
      ∃ d' : Device,
        (GetDevice device g { connectErr := none, getResult := Except.ok vars }).2 =
          some { device := d', error := none, batchIssued := true }
        ∧ d'.Reached = true ∧ d'.Host = device.Host ∧ d'.SNMP = device.SNMP
        ∧ d'.Version.RouterOS = v1 ∧ d'.Version.Latest = v2
        ∧ d'.Version.Bootloader = v3 ∧ d'.Model = replaceRouterOS v4 ∧ d'.Name = v5)
    ∧ (∀ (l1 : List SnmpPDU) (x : SnmpPDU) (l2 : List SnmpPDU) (d : Device),
      knownOid x.Name = false → x.Value.isBytes = true →
      applyVars (l1 ++ x :: l2) d = applyVars (l1 ++ l2) d) := by
  refine ⟨?_, applyVars_unknown_insert⟩
  intro device g vars v1 v2 v3 v4 v5 hbytes h1 h2 h3 h4 h5
  have hsome : (applyVars vars { device with Reached := true }).isSome = true := by
    rw [applyVars_isSome]
    exact hbytes
  obtain ⟨d', hd'⟩ := Option.isSome_iff_exists.mp hsome
  refine ⟨d', by simp [GetDevice, hd'], ?_, ?_, ?_, ?_, ?_, ?_, ?_, ?_⟩
  · have := applyVars_inv (fun d => d.Reached) dispatchOid_Reached vars _ _ hd'
    simpa using this
  · have := applyVars_inv (fun d => d.Host) dispatchOid_Host vars _ _ hd'
    simpa using this
  · have := applyVars_inv (fun d => d.SNMP) dispatchOid_SNMP vars _ _ hd'
    simpa using this
  · have := applyVars_proj _ (fun d => d.Version.RouterOS) (fun s => s)
      dispatchOid_RouterOS vars _ _ hd'
    rw [h1] at this
    simpa using this
  · have := applyVars_proj _ (fun d => d.Version.Latest) (fun s => s)
      dispatchOid_Latest vars _ _ hd'
    rw [h2] at this
    simpa using this
  · have := applyVars_proj _ (fun d => d.Version.Bootloader) (fun s => s)
      dispatchOid_Bootloader vars _ _ hd'
    rw [h3] at this
    simpa using this
  · have := applyVars_proj _ (fun d => d.Model) replaceRouterOS
      dispatchOid_Model vars _ _ hd'
    rw [h4] at this
    simpa using this
  · have := applyVars_proj _ (fun d => d.Name) (fun s => s)
      dispatchOid_Name vars _ _ hd'
    rw [h5] at this
    simpa using this

/-- Witness for C5 (amended) at a concrete input: all five addresses plus a
byte-valued extra at an unknown address. -/
theorem C5_witness :
    (∃ d' : Device,
      (GetDevice baseDevice defaultGoSnmp
          { connectErr := none, getResult := Except.ok varsFivePlusBytes }).2 =
        some { device := d', error := none, batchIssued := true }
      ∧ d'.Reached = true ∧ d'.Host = baseDevice.Host ∧ d'.SNMP = baseDevice.SNMP
      ∧ d'.Version.RouterOS = "7.1" ∧ d'.Version.Latest = "7.2"
      ∧ d'.Version.Bootloader = "7.0.3"
      ∧ d'.Model = replaceRouterOS "RouterOS RB1100" ∧ d'.Name = "core-router")
    ∧ applyVars (varsAllFive ++ ⟨".1.3.6.1.2.1.1.6.0", .bytes "rack 7"⟩ :: []) baseDevice =
        applyVars (varsAllFive ++ []) baseDevice :=
  ⟨C5_full_batch_populates.1 baseDevice defaultGoSnmp varsFivePlusBytes
      "7.1" "7.2" "7.0.3" "RouterOS RB1100" "core-router"
      (by decide) (by decide) (by decide) (by decide) (by decide) (by decide),
   C5_full_batch_populates.2 varsAllFive ⟨".1.3.6.1.2.1.1.6.0", .bytes "rack 7"⟩ []
      baseDevice (by decide) (by decide)⟩

/-- Claim C8 (confirmed): the system-description mapping stores the decoded
text with exactly the first occurrence of the literal "RouterOS" removed and
no whitespace trimming: running the full poll on the value
"RouterOS RB1100" stores the model " RB1100" (leading space kept); in
general one pattern-length worth of characters is removed when the literal
occurs and nothing changes when it does not. -/
theorem C8_model_strips_one_occurrence :
    ((GetDevice baseDevice defaultGoSnmp
        { connectErr := none,
          getResult := Except.ok [⟨".1.3.6.1.2.1.1.1.0", .bytes "RouterOS RB1100"⟩] }).2.map
      (fun o => o.device.Model)) = some " RB1100"
    ∧ (∀ s : List Char, occursIn "RouterOS".data s = true →
        (stripFirst "RouterOS".data s).length + 8 = s.length)
    ∧ (∀ s : List Char, occursIn "RouterOS".data s = false →
        stripFirst "RouterOS".data s = s)
    ∧ (∀ s : String, replaceRouterOS s = String.mk (stripFirst "RouterOS".data s.data)) := by
  refine ⟨by decide, ?_, ?_, fun s => rfl⟩
  · intro s h
    have h8 : ("RouterOS".data).length = 8 := rfl
    rw [← h8]
    exact stripFirst_length _ _ h
  · exact fun s h => stripFirst_not_occurs _ _ h

/-- Witness for C8 at concrete inputs: one occurrence is removed from
"RouterOS RB1100" and a pattern-free string is untouched. -/
theorem C8_witness :
    ((stripFirst "RouterOS".data "RouterOS RB1100".data).length + 8 =
      "RouterOS RB1100".data.length)
    ∧ stripFirst "RouterOS".data "RB1100".data = "RB1100".data :=
  ⟨C8_model_strips_one_occurrence.2.1 _ (by decide),
   C8_model_strips_one_occurrence.2.2.1 _ (by decide)⟩

/-- Claim C10 (confirmed): the mapping loop terminates normally exactly when
every returned value is a byte buffer (every switch arm, the default print
included, type-asserts the value to a byte slice), and a successful batch
response carrying one non-byte value makes the whole poll abort with no
defined result rather than failing only that field. -/
theorem C10_mapping_total_only_on_bytes :
    (∀ (vars : List SnmpPDU) (d : Device),
      (applyVars vars d).isSome = vars.all (fun p => p.Value.isBytes))
    ∧ (GetDevice baseDevice defaultGoSnmp
        { connectErr := none,
          getResult := Except.ok [⟨".1.3.6.1.4.1.14988.1.1.4.4.0", .int 5⟩] }).2 = none :=
  ⟨applyVars_isSome, by decide⟩

end MikrotikMonitor
